import Mathlib

/-!
Verification of the BondYieldCalc core (src/main.py) against its
natural-language specification.

The embedding works over exact rationals (`ℚ`) in place of Python floats.
Python exceptions are modelled by `Option`: a function that can raise
returns `none` exactly on the inputs where the source raises.  Python
dict-valued report entries hold either a number or a string; the value
type `FieldVal` covers both, and the source code only ever constructs the
string form (percent-formatted).
-/

set_option autoImplicit false

namespace BondYieldCalc

/-- The floor of a rational, computed by floor-dividing numerator by
denominator (the denominator is positive). -/
def floorQ (q : ℚ) : ℤ :=
  Int.fdiv q.num q.den

/-- Truncation toward zero, the semantics of Python's `int(x)` applied to
the product `years * payments_per_year` in `ytm` (line 19 of main.py);
`Int.tdiv` truncates toward zero. -/
def truncToInt (q : ℚ) : ℤ :=
  Int.tdiv q.num q.den

/-- Round to the nearest integer, halves away from zero resolved upward.
Used only by the percent formatter `fmtPct`. -/
def roundQ (q : ℚ) : ℤ :=
  floorQ (q + 1 / 2)

/-- Model of `cash_flows[-1] += nominal` (main.py line 21): add `v` to the
last element of the list; `none` models the `IndexError` Python raises when
the array is empty. -/
def addToLast (v : ℚ) : List ℚ → Option (List ℚ)
  | [] => none
  | [c] => some [c + v]
  | c :: c2 :: rest => Option.map (c :: ·) (addToLast v (c2 :: rest))

/-- Helper for `npv`: the discounted sum `Σ cfs[j] / (1 + r/m)^(t+j)` with the
first flow discounted at exponent `t`. -/
def npvAux (m r : ℚ) : List ℚ → ℕ → ℚ
  | [], _ => 0
  | c :: rest, t => c / (1 + r / m) ^ t + npvAux m r rest (t + 1)

/-- Model of the inner `npv` closure of `ytm` (main.py lines 23-24):
`np.sum(cash_flows / (1 + rate / m) ** np.arange(1, periods + 1)) - price`. -/
def npv (cfs : List ℚ) (m price rate : ℚ) : ℚ :=
  npvAux m rate cfs 1 - price

/-- Model of the Newton loop of `ytm` (main.py lines 27-36): at most the given
fuel many iterations from `g`; compute `f = fn g`, a forward finite-difference
derivative with step `1e-6`, stop returning the current guess when
`|d| < 1e-9`, otherwise update the guess and stop (returning the updated
guess) when `|f| < 1e-6`. -/
def newton (fn : ℚ → ℚ) : ℕ → ℚ → ℚ
  | 0, g => g
  | k + 1, g =>
    let f := fn g
    let d := (fn (g + 1e-6) - f) / 1e-6
    if |d| < 1e-9 then g
    else
      let g2 := g - f / d
      if |f| < 1e-6 then g2
      else newton fn k g2

/-- Model of `ytm` (main.py lines 18-36).  `periods = int(years * m)`;
`[coupon] * periods` is `List.replicate`, empty when `periods <= 0`, in which
case `cash_flows[-1] += nominal` raises (`none`).  Otherwise Newton's method
runs for up to 100 iterations from the fixed guess `0.15`. -/
def ytm (price coupon years nominal m : ℚ) : Option ℚ :=
  match addToLast nominal (List.replicate (truncToInt (years * m)).toNat coupon) with
  | none => none
  | some cfs => some (newton (npv cfs m price) 100 0.15)

/-- Model of `current_yield` (main.py lines 10-12): `coupon * m / price`,
where `none` models the `ZeroDivisionError` raised exactly when `price == 0`. -/
def current_yield (price coupon m : ℚ) : Option ℚ :=
  if price = 0 then none else some (coupon * m / price)

/-- Model of `real_yield` (main.py lines 42-43). -/
def real_yield (nominal_ytm inflation : ℚ) : ℚ :=
  nominal_ytm - inflation

/-- Model of `floater_coupon` (main.py lines 49-50). -/
def floater_coupon (base_rate spread : ℚ) : ℚ :=
  base_rate + spread

/-- Model of the Python f-string `f"{x * 100:.2f}%"` used for every metric
field of `analyze_bonds`: multiply by 100, render with two decimal places and
a trailing percent sign.  The exact-rational model rounds the hundredths
digit with `roundQ`; a negative value rounding to zero is rendered unsigned. -/
def fmtPct (x : ℚ) : String :=
  let c : ℤ := roundQ (x * 100 * 100)
  let a : ℕ := c.natAbs
  (if c < 0 then "-" else "") ++ toString (a / 100) ++ "." ++
    (if a % 100 < 10 then "0" else "") ++ toString (a % 100) ++ "%"

/-- A Python dict value in a report: either a raw number or a string. The
source only ever stores strings (`fmtPct` renderings) in metric fields. -/
inductive FieldVal where
  | num : ℚ → FieldVal
  | str : String → FieldVal
deriving DecidableEq

/-- An input bond record.  Optional fields model the keys read with
`b.get(key, default)` in `analyze_bonds`; integer fields embed into `ℚ`. -/
structure Bond where
  name : String
  type : String
  price : ℚ
  coupon : ℚ
  years : ℚ
  nominal : Option ℚ
  payments_per_year : Option ℚ
  spread : Option ℚ
deriving DecidableEq

/-- An output report dict: the `"name"` and `"type"` entries plus the
metric fields in insertion order. -/
structure Report where
  name : String
  type : String
  fields : List (String × FieldVal)
deriving DecidableEq

/-- Model of one iteration of the `analyze_bonds` loop body (main.py lines
58-85) on bond `b`.  Outer `none`: the iteration raised; `some none`: the
bond's kind is unrecognized and no report is appended; `some (some rep)`:
`rep` is appended to the results. -/
def analyze_bond (inflation base_rate : ℚ) (b : Bond) : Option (Option Report) :=
  if b.type = "fixed" then
    match current_yield b.price b.coupon (b.payments_per_year.getD 2) with
    | none => none
    | some cy =>
      match ytm b.price b.coupon b.years (b.nominal.getD 1000) (b.payments_per_year.getD 2) with
      | none => none
      | some yt =>
        some (some ⟨b.name, "Fixed",
          [("Current Yield", FieldVal.str (fmtPct cy)), ("YTM", FieldVal.str (fmtPct yt))]⟩)
  else if b.type = "linker" then
    match ytm b.price b.coupon b.years (b.nominal.getD 1000) (b.payments_per_year.getD 2) with
    | none => none
    | some yt =>
      some (some ⟨b.name, "Linker",
        [("YTM", FieldVal.str (fmtPct yt)),
         ("Real Yield", FieldVal.str (fmtPct (real_yield yt inflation)))]⟩)
  else if b.type = "floater" then
    some (some ⟨b.name, "Floater",
      [("Coupon Now", FieldVal.str (fmtPct (floater_coupon base_rate (b.spread.getD 0))))]⟩)
  else
    some none

/-- Model of `analyze_bonds` (main.py lines 56-86): fold the loop body over
the bond list in order, appending each produced report; an exception in any
iteration aborts the whole call (`none`, no partial results). -/
def analyze_bonds : List Bond → ℚ → ℚ → Option (List Report)
  | [], _, _ => some []
  | b :: rest, inflation, base_rate =>
    match analyze_bond inflation base_rate b with
    | none => none
    | some none => analyze_bonds rest inflation base_rate
    | some (some rep) => Option.map (rep :: ·) (analyze_bonds rest inflation base_rate)

/-- Model of calling `analyze_bonds(bonds)` with the context parameters
omitted: the Python `def` line supplies `inflation=0.06, base_rate=0.15`. -/
def analyze_bonds_defaults (bonds : List Bond) : Option (List Report) :=
  analyze_bonds bonds 0.06 0.15

/-! ### Spec-side model of the solver (for the refinement claim C1)

The following definitions transcribe §4.2 of the spec word for word, to be
compared with the source embedding `ytm` above: `N = floor(years * m)`
cash flows of `coupon` with `nominal` added to the final flow, the pricing
sum `Σ_{t=1..N} cf_t / (1 + r/m)^t`, `f(r) = NPV(r) - price`, and the
Newton iteration with guess `0.15`, cap 100, forward difference step
`1e-6`, flat-derivative threshold `1e-9` and residual threshold `1e-6`. -/

/-- Spec §4.2 step 1: `N` periods each paying `coupon`, with `nominal`
added to the final period's flow. -/
def specCashFlows (coupon nominal : ℚ) (N : ℕ) : List ℚ :=
  List.replicate (N - 1) coupon ++ [coupon + nominal]

/-- Spec §4.2: `NPV(r) = Σ_{t=1..N} cf_t / (1 + r/m)^t` (`t` one-based). -/
def specNpv (cfs : List ℚ) (m r : ℚ) : ℚ :=
  ((List.range cfs.length).map (fun t => cfs.getD t 0 / (1 + r / m) ^ (t + 1))).sum

/-- Spec §4.2: `f(r) = NPV(r) - price`. -/
def specF (cfs : List ℚ) (m price r : ℚ) : ℚ :=
  specNpv cfs m r - price

/-- Spec §4.2 step 3, transcribed: iterate up to the fuel many times;
compute `f(guess)`; estimate the derivative by a forward finite difference
with step `1e-6`; if `|derivative| < 1e-9` return the current guess;
otherwise update `guess -= f(guess)/derivative` and stop early when the
residual `|f(guess)|` of the guess just used is below `1e-6`. -/
def specNewton (fn : ℚ → ℚ) : ℕ → ℚ → ℚ
  | 0, g => g
  | k + 1, g =>
    let f := fn g
    let d := (fn (g + 1e-6) - f) / 1e-6
    if |d| < 1e-9 then g
    else
      let g2 := g - f / d
      if |f| < 1e-6 then g2
      else specNewton fn k g2

/-- Spec §4.2 assembled: the Newton iteration from `guess = 0.15`, at most
100 iterations, over the spec's cash flows and objective, with
`N = floor(years * m)`. -/
def solveYtm_spec (price coupon years nominal m : ℚ) : ℚ :=
  specNewton (specF (specCashFlows coupon nominal (floorQ (years * m)).toNat) m price) 100 0.15

/-! ### Spec-side characterization of the aggregator (for C2) -/

/-- The three bond kinds recognized by the `if/elif` chain of
`analyze_bonds`; every other kind falls through without effect. -/
def recognizedKind (b : Bond) : Bool :=
  b.type == "fixed" || b.type == "linker" || b.type == "floater"

/-- The capitalized kind label stored in a report for each recognized
input kind. -/
def displayKind (s : String) : String :=
  if s = "fixed" then "Fixed"
  else if s = "linker" then "Linker"
  else if s = "floater" then "Floater"
  else s

/-- The report computed for a single recognized bond (`none` models an
error raised while computing it); unrecognized kinds give `none` but are
filtered out before this is consulted. -/
def reportOf (inflation base_rate : ℚ) (b : Bond) : Option Report :=
  if b.type = "fixed" then
    match current_yield b.price b.coupon (b.payments_per_year.getD 2) with
    | none => none
    | some cy =>
      match ytm b.price b.coupon b.years (b.nominal.getD 1000) (b.payments_per_year.getD 2) with
      | none => none
      | some yt =>
        some ⟨b.name, "Fixed",
          [("Current Yield", FieldVal.str (fmtPct cy)), ("YTM", FieldVal.str (fmtPct yt))]⟩
  else if b.type = "linker" then
    match ytm b.price b.coupon b.years (b.nominal.getD 1000) (b.payments_per_year.getD 2) with
    | none => none
    | some yt =>
      some ⟨b.name, "Linker",
        [("YTM", FieldVal.str (fmtPct yt)),
         ("Real Yield", FieldVal.str (fmtPct (real_yield yt inflation)))]⟩
  else if b.type = "floater" then
    some ⟨b.name, "Floater",
      [("Coupon Now", FieldVal.str (fmtPct (floater_coupon base_rate (b.spread.getD 0))))]⟩
  else none

/-- Sequential traversal collecting one report per bond, aborting on the
first error; composed with `List.filter recognizedKind` it characterizes
`analyze_bonds`. -/
def collectReports (inflation base_rate : ℚ) : List Bond → Option (List Report)
  | [] => some []
  | b :: rest =>
    match reportOf inflation base_rate b with
    | none => none
    | some rep => Option.map (rep :: ·) (collectReports inflation base_rate rest)

/-- Discriminator: is this dict value a raw number (as opposed to a
formatted string)? -/
def FieldVal.isNum : FieldVal → Bool
  | .num _ => true
  | .str _ => false

/-! ### Concrete inputs used by counterexamples and witnesses -/

/-- A linker bond, the shape of the spec's concrete scenario 2. -/
def bLink : Bond := ⟨"LinkerA", "linker", 950, 25, 4, none, none, none⟩

/-- The (symbolic) Newton result `ytm` computes for `bLink`:
8 periods of 25 with the nominal 1000 added to the last flow. -/
def ytmLink : ℚ := newton (npv [25, 25, 25, 25, 25, 25, 25, 25 + 1000] 2 950) 100 0.15

/-- A floater bond with the spec's concrete scenario-3 spread `0.005`. -/
def bFloatS : Bond := ⟨"FS", "floater", 1000, 0, 5, none, none, some 0.005⟩

/-- A floater bond with spread `0.002` (raw coupon-now value `0.152`). -/
def bFloatFmt : Bond := ⟨"FF", "floater", 1000, 0, 5, none, none, some 0.002⟩

/-- Same name and spread as `bFloatFmt` but different price, coupon,
years, nominal and payments-per-year. -/
def bFloatP : Bond := ⟨"FF", "floater", 900, 10, 2, some 500, some 4, some 0.002⟩

/-- A bond of an unrecognized kind. -/
def bZero : Bond := ⟨"Z", "zero-coupon", 1000, 0, 5, none, none, none⟩

/-- A fixed bond with price `0`, on which `current_yield` raises. -/
def bBadPrice : Bond := ⟨"Bad", "fixed", 0, 35, 3, none, none, none⟩

/-- A floater bond used by the dispatch witness. -/
def bFloatW : Bond := ⟨"FW", "floater", 1000, 0, 5, none, none, some 0.01⟩

/-- The report `analyze_bond` produces for `bFloatW`. -/
def repFloatW : Report :=
  ⟨"FW", "Floater", [("Coupon Now", FieldVal.str (fmtPct (floater_coupon 0.15 0.01)))]⟩

/-! ### Supporting lemmas -/

theorem specNewton_eq_newton (fn : ℚ → ℚ) (k : ℕ) : ∀ g : ℚ, specNewton fn k g = newton fn k g := by
  induction k with
  | zero => intro g; rfl
  | succ k ih => intro g; simp only [specNewton, newton, ih]

theorem addToLast_replicate (v c : ℚ) (N : ℕ) (h : 1 ≤ N) :
    addToLast v (List.replicate N c) = some (List.replicate (N - 1) c ++ [c + v]) := by
  induction N with
  | zero => omega
  | succ n ih =>
    cases n with
    | zero => rfl
    | succ p =>
      have ih2 := ih (by omega)
      simp only [List.replicate_succ, addToLast] at ih2 ⊢
      simp only [Nat.add_sub_cancel] at ih2 ⊢
      rw [ih2]
      simp [List.replicate_succ]

theorem npvAux_eq_sum (m r : ℚ) (cfs : List ℚ) : ∀ k : ℕ,
    npvAux m r cfs (k + 1) =
      ((List.range cfs.length).map (fun t => cfs.getD t 0 / (1 + r / m) ^ (t + k + 1))).sum := by
  induction cfs with
  | nil => intro k; simp [npvAux]
  | cons c rest ih =>
    intro k
    simp only [npvAux, List.length_cons, List.range_succ_eq_map, List.map_cons, List.map_map,
      List.sum_cons, List.getD_cons_zero, Nat.zero_add]
    rw [ih (k + 1)]
    congr 1
    congr 1
    apply List.map_congr_left
    intro t ht
    simp only [Function.comp_apply, List.getD_cons_succ]
    congr 2
    omega

theorem npv_eq_specF (cfs : List ℚ) (m price r : ℚ) :
    npv cfs m price r = specF cfs m price r := by
  have h := npvAux_eq_sum m r cfs 0
  simp only [Nat.zero_add, Nat.add_zero] at h
  simp only [npv, specF, specNpv, h]

theorem tdiv_eq_fdiv_of_nonneg (a : ℤ) (b : ℕ) (ha : 0 ≤ a) :
    Int.tdiv a b = Int.fdiv a b :=
  (Int.fdiv_eq_tdiv ha (Int.natCast_nonneg b)).symm

theorem floorQ_nonneg_num (q : ℚ) (h : 1 ≤ floorQ q) : 0 ≤ q.num := by
  by_contra hneg
  push_neg at hneg
  have hd : (0:ℤ) < q.den := by exact_mod_cast q.den_pos
  have h2 := Int.fdiv_neg' hneg hd
  simp only [floorQ] at h
  omega

theorem newton_npv_eq (cfs : List ℚ) (m price : ℚ) (k : ℕ) (g : ℚ) :
    newton (npv cfs m price) k g = specNewton (specF cfs m price) k g := by
  rw [specNewton_eq_newton]
  have hfun : npv cfs m price = specF cfs m price := funext (npv_eq_specF cfs m price)
  rw [hfun]

/-! ### Claim theorems -/

/-- C1: for every input whose period count `N = floor(years * m)` is at
least 1, the source `ytm` computes exactly the Newton iteration the spec
describes: `N` cash flows of `coupon` with `nominal` added to the final
flow, objective `f(r) = NPV(r) - price`, initial guess `0.15`, at most 100
iterations, forward-difference step `1e-6`, flat-derivative threshold
`1e-9` and residual threshold `1e-6`, returning the final guess. -/
theorem ytm_newton_matches_spec (price coupon years nominal m : ℚ)
    (hN : 1 ≤ floorQ (years * m)) :
    ytm price coupon years nominal m = some (solveYtm_spec price coupon years nominal m) := by
  have hnum : 0 ≤ (years * m).num := floorQ_nonneg_num _ hN
  have htr : truncToInt (years * m) = floorQ (years * m) :=
    tdiv_eq_fdiv_of_nonneg _ _ hnum
  have hN1 : 1 ≤ (floorQ (years * m)).toNat := by
    have : (0:ℤ) < floorQ (years * m) := by omega
    omega
  simp only [ytm, htr]
  rw [addToLast_replicate nominal coupon ((floorQ (years * m)).toNat) hN1]
  simp only [solveYtm_spec, specCashFlows]
  rw [newton_npv_eq]

/-- Witness for C1 at the spec's concrete scenario 1
(`price=900, coupon=35, years=3, nominal=1000, m=2`, so `N = 6`). -/
theorem ytm_newton_matches_spec_witness :
    1 ≤ floorQ ((3:ℚ) * 2) ∧ ytm 900 35 3 1000 2 = some (solveYtm_spec 900 35 3 1000 2) :=
  ⟨by with_unfolding_all decide,
   ytm_newton_matches_spec 900 35 3 1000 2 (by with_unfolding_all decide)⟩

/-- C4 (amended): the source `ytm` performs no input validation at all.
It fails exactly when the computed period count `int(years * m)` is below
1 (the `cash_flows[-1]` access raises an `IndexError` on the empty array —
not an `InvalidInputError`); for every other input, including non-positive
prices and coupons, it silently computes and returns a guess. -/
theorem ytm_none_iff_degenerate (price coupon years nominal m : ℚ) :
    ytm price coupon years nominal m = none ↔ truncToInt (years * m) < 1 := by
  by_cases h : truncToInt (years * m) < 1
  · have h0 : (truncToInt (years * m)).toNat = 0 := by omega
    simp [ytm, h0, addToLast, h]
  · have h1 : 1 ≤ (truncToInt (years * m)).toNat := by omega
    simp only [ytm]
    rw [addToLast_replicate nominal coupon ((truncToInt (years * m)).toNat) h1]
    simp [h]

/-- Counterexample to C4 as stated: the negative price `-900` is accepted
without any error — `ytm` returns a computed guess instead of failing with
`InvalidInputError`. -/
theorem ytm_no_validation_cex : (ytm (-900) 35 3 1000 2).isSome = true := by
  with_unfolding_all rfl

/-- C5: `current_yield` returns exactly `coupon * m / price` for every
positive price (and nonnegative coupon), and it fails with a
division-by-zero error if and only if `price = 0`. -/
theorem current_yield_spec :
    (∀ price coupon m : ℚ, 0 < price → 0 ≤ coupon →
        current_yield price coupon m = some (coupon * m / price))
  ∧ (∀ price coupon m : ℚ, current_yield price coupon m = none ↔ price = 0) := by
  constructor
  · intro p c m hp _
    simp [current_yield, ne_of_gt hp]
  · intro p c m
    by_cases hp : p = 0 <;> simp [current_yield, hp]

/-- Witness for C5 at `price=900, coupon=35, m=2` (the spec's concrete
scenario 1: current yield `35 * 2 / 900`). -/
theorem current_yield_spec_witness :
    current_yield 900 35 2 = some (35 * 2 / 900) :=
  current_yield_spec.1 900 35 2 (by norm_num) (by norm_num)

theorem analyze_bond_eq (i r : ℚ) (b : Bond) :
    analyze_bond i r b =
      if recognizedKind b = true then Option.map some (reportOf i r b) else some none := by
  by_cases h1 : b.type = "fixed"
  · simp only [analyze_bond, reportOf, recognizedKind, h1]
    cases hcy : current_yield b.price b.coupon (b.payments_per_year.getD 2) with
    | none => simp
    | some cy =>
      cases hyt : ytm b.price b.coupon b.years (b.nominal.getD 1000) (b.payments_per_year.getD 2) with
      | none => simp
      | some yt => simp
  · by_cases h2 : b.type = "linker"
    · simp only [analyze_bond, reportOf, recognizedKind, h2]
      cases hyt : ytm b.price b.coupon b.years (b.nominal.getD 1000) (b.payments_per_year.getD 2) with
      | none => simp
      | some yt => simp
    · by_cases h3 : b.type = "floater"
      · simp [analyze_bond, reportOf, recognizedKind, h3, h1, h2]
      · simp [analyze_bond, reportOf, recognizedKind, h1, h2, h3]

theorem analyze_bonds_eq_collect (i r : ℚ) (bs : List Bond) :
    analyze_bonds bs i r = collectReports i r (bs.filter recognizedKind) := by
  induction bs with
  | nil => rfl
  | cons b rest ih =>
    by_cases hb : recognizedKind b = true
    · rw [List.filter_cons_of_pos hb]
      simp only [analyze_bonds, analyze_bond_eq, hb, if_true, collectReports]
      cases hrep : reportOf i r b with
      | none => simp
      | some rep => simp [ih]
    · rw [List.filter_cons_of_neg hb]
      simp only [analyze_bonds, analyze_bond_eq, hb, if_false]
      simpa using ih

theorem analyze_bond_shapes (i r : ℚ) (b : Bond) (rep : Report)
    (h : analyze_bond i r b = some (some rep)) :
    (b.type = "fixed" ∧ ∃ cy yt,
        current_yield b.price b.coupon (b.payments_per_year.getD 2) = some cy ∧
        ytm b.price b.coupon b.years (b.nominal.getD 1000) (b.payments_per_year.getD 2) = some yt ∧
        rep = ⟨b.name, "Fixed",
          [("Current Yield", FieldVal.str (fmtPct cy)), ("YTM", FieldVal.str (fmtPct yt))]⟩)
  ∨ (b.type = "linker" ∧ ∃ yt,
        ytm b.price b.coupon b.years (b.nominal.getD 1000) (b.payments_per_year.getD 2) = some yt ∧
        rep = ⟨b.name, "Linker",
          [("YTM", FieldVal.str (fmtPct yt)),
           ("Real Yield", FieldVal.str (fmtPct (real_yield yt i)))]⟩)
  ∨ (b.type = "floater" ∧
        rep = ⟨b.name, "Floater",
          [("Coupon Now", FieldVal.str (fmtPct (floater_coupon r (b.spread.getD 0))))]⟩) := by
  by_cases h1 : b.type = "fixed"
  · left
    refine ⟨h1, ?_⟩
    simp only [analyze_bond] at h
    rw [if_pos h1] at h
    cases hcy : current_yield b.price b.coupon (b.payments_per_year.getD 2) with
    | none => rw [hcy] at h; cases h
    | some cy =>
      rw [hcy] at h
      cases hyt : ytm b.price b.coupon b.years (b.nominal.getD 1000) (b.payments_per_year.getD 2) with
      | none => rw [hyt] at h; cases h
      | some yt =>
        rw [hyt] at h
        simp only [Option.some.injEq] at h
        exact ⟨cy, yt, rfl, rfl, h.symm⟩
  · simp only [analyze_bond] at h
    rw [if_neg h1] at h
    by_cases h2 : b.type = "linker"
    · right; left
      refine ⟨h2, ?_⟩
      rw [if_pos h2] at h
      cases hyt : ytm b.price b.coupon b.years (b.nominal.getD 1000) (b.payments_per_year.getD 2) with
      | none => rw [hyt] at h; cases h
      | some yt =>
        rw [hyt] at h
        simp only [Option.some.injEq] at h
        exact ⟨yt, rfl, h.symm⟩
    · rw [if_neg h2] at h
      by_cases h3 : b.type = "floater"
      · right; right
        rw [if_pos h3] at h
        simp only [Option.some.injEq] at h
        exact ⟨h3, h.symm⟩
      · rw [if_neg h3] at h
        cases h

/-- C2: `analyze_bonds` is the order-preserving single traversal that
keeps exactly the bonds of the three recognized kinds (any other kind is
silently skipped: its loop iteration yields no report and no error, and
the remaining bonds still produce their reports in input order), and every
produced report carries its bond's name and kind label. -/
theorem analyze_bonds_dispatch :
    (∀ i r bs, analyze_bonds bs i r = collectReports i r (bs.filter recognizedKind))
  ∧ (∀ i r b, recognizedKind b = false → analyze_bond i r b = some none)
  ∧ (∀ i r b rep, analyze_bond i r b = some (some rep) →
      rep.name = b.name ∧ rep.type = displayKind b.type) := by
  refine ⟨fun i r bs => analyze_bonds_eq_collect i r bs, fun i r b hb => ?_, fun i r b rep h => ?_⟩
  · rw [analyze_bond_eq, hb]
    simp
  · rcases analyze_bond_shapes i r b rep h with ⟨hk, _, _, _, _, hrep⟩ | ⟨hk, _, _, hrep⟩ | ⟨hk, hrep⟩ <;>
      subst hrep <;> simp [displayKind, hk]

/-- Witness for C2: the unrecognized kind `"zero-coupon"` is skipped with
no error, and a recognized floater's report carries its name and kind. -/
theorem analyze_bonds_dispatch_witness :
    (recognizedKind bZero = false ∧ analyze_bond 0.06 0.15 bZero = some none)
  ∧ (analyze_bond 0.06 0.15 bFloatW = some (some repFloatW)
      ∧ repFloatW.name = bFloatW.name ∧ repFloatW.type = displayKind bFloatW.type) :=
  ⟨⟨rfl, analyze_bonds_dispatch.2.1 0.06 0.15 bZero rfl⟩,
   ⟨by with_unfolding_all rfl,
    analyze_bonds_dispatch.2.2 0.06 0.15 bFloatW repFloatW (by with_unfolding_all rfl)⟩⟩

/-- C6: an error raised while computing any bond of the batch makes the
whole `analyze_bonds` call fail with that error — nothing is caught, and
no partial result list is returned. -/
theorem analyze_bonds_error_propagation (i r : ℚ) (bs : List Bond) (b : Bond)
    (hmem : b ∈ bs) (herr : analyze_bond i r b = none) :
    analyze_bonds bs i r = none := by
  induction bs with
  | nil => cases hmem
  | cons c rest ih =>
    rcases List.mem_cons.mp hmem with rfl | htail
    · simp [analyze_bonds, herr]
    · cases hc : analyze_bond i r c with
      | none => simp [analyze_bonds, hc]
      | some o =>
        cases o with
        | none => simpa [analyze_bonds, hc] using ih htail
        | some rep => simp [analyze_bonds, hc, ih htail]

/-- Witness for C6: a fixed bond with price `0` makes its own computation
raise, and the whole batch returns no result list. -/
theorem analyze_bonds_error_propagation_witness :
    analyze_bond 0.06 0.15 bBadPrice = none ∧ analyze_bonds [bBadPrice] 0.06 0.15 = none :=
  ⟨by with_unfolding_all rfl,
   analyze_bonds_error_propagation 0.06 0.15 [bBadPrice] bBadPrice (by simp)
     (by with_unfolding_all rfl)⟩

/-- C3 (amended): the core itself applies the percentage presentation:
every metric field `analyze_bonds` emits is the string
`f"{value * 100:.2f}%"` — a `FieldVal.str` built by `fmtPct` — never a raw
fractional number. -/
theorem fields_percent_formatted :
    ∀ i r b rep, analyze_bond i r b = some (some rep) →
      ∀ p ∈ rep.fields, ∃ q : ℚ, p.2 = FieldVal.str (fmtPct q) := by
  intro i r b rep h p hp
  rcases analyze_bond_shapes i r b rep h with
    ⟨_, cy, yt, _, _, hrep⟩ | ⟨_, yt, _, hrep⟩ | ⟨_, hrep⟩ <;> subst hrep <;> simp at hp
  · rcases hp with hp | hp <;> rw [hp]
    · exact ⟨cy, rfl⟩
    · exact ⟨yt, rfl⟩
  · rcases hp with hp | hp <;> rw [hp]
    · exact ⟨yt, rfl⟩
    · exact ⟨real_yield yt i, rfl⟩
  · rw [hp]
    exact ⟨floater_coupon r (b.spread.getD 0), rfl⟩

/-- Witness for C3's amended theorem at the floater `bFloatFmt`. -/
theorem fields_percent_formatted_witness :
    ∃ q : ℚ, (FieldVal.str (fmtPct (floater_coupon 0.15 (bFloatFmt.spread.getD 0)))) =
      FieldVal.str (fmtPct q) :=
  fields_percent_formatted 0.06 0.15 bFloatFmt
    ⟨bFloatFmt.name, "Floater",
      [("Coupon Now", FieldVal.str (fmtPct (floater_coupon 0.15 (bFloatFmt.spread.getD 0))))]⟩
    (by with_unfolding_all rfl)
    ("Coupon Now", FieldVal.str (fmtPct (floater_coupon 0.15 (bFloatFmt.spread.getD 0))))
    (by simp)

/-- Counterexample to C3 as stated: for the floater `bFloatFmt` (spread
`0.002`, so raw coupon-now value `0.152`) the emitted field is the
formatted string `"15.20%"` — the raw value multiplied by 100 and rendered
to two decimals — not a raw fractional number. -/
theorem raw_float_fields_cex :
    analyze_bond 0.06 0.15 bFloatFmt =
      some (some ⟨"FF", "Floater", [("Coupon Now", FieldVal.str "15.20%")]⟩)
  ∧ FieldVal.isNum (FieldVal.str "15.20%") = false
  ∧ fmtPct (floater_coupon 0.15 0.002) = "15.20%"
  ∧ roundQ (floater_coupon 0.15 0.002 * 100 * 100) = 1520 :=
  ⟨by with_unfolding_all decide, rfl, by with_unfolding_all decide,
   by with_unfolding_all decide⟩

/-- C7 (amended): `real_yield` returns exactly `nominalYtm - inflation`
for all inputs and never fails; for every linker bond whose `ytm` call
returns `yt`, the report's Real Yield field is the percent-formatted
rendering of `real_yield yt inflation` (a string, not the raw number). -/
theorem real_yield_and_linker_report :
    (∀ y i : ℚ, real_yield y i = y - i)
  ∧ (∀ i r b yt, b.type = "linker" →
      ytm b.price b.coupon b.years (b.nominal.getD 1000) (b.payments_per_year.getD 2) = some yt →
      analyze_bond i r b = some (some ⟨b.name, "Linker",
        [("YTM", FieldVal.str (fmtPct yt)),
         ("Real Yield", FieldVal.str (fmtPct (real_yield yt i)))]⟩)) := by
  refine ⟨fun y i => rfl, fun i r b yt hk hyt => ?_⟩
  simp [analyze_bond, hk, hyt]

/-- Witness for C7's amended theorem at the linker `bLink`
(`price=950, coupon=25, years=4`, the spec's concrete scenario 2). -/
theorem real_yield_and_linker_report_witness :
    analyze_bond 0.06 0.15 bLink = some (some ⟨bLink.name, "Linker",
      [("YTM", FieldVal.str (fmtPct ytmLink)),
       ("Real Yield", FieldVal.str (fmtPct (real_yield ytmLink 0.06)))]⟩) :=
  real_yield_and_linker_report.2 0.06 0.15 bLink ytmLink rfl (by with_unfolding_all rfl)

/-- Counterexample to C7 as stated: for the linker `bLink` the Real Yield
field is the formatted string of `real_yield (ytm ...) inflation`, not the
raw number itself. -/
theorem linker_real_yield_field_cex :
    analyze_bond 0.06 0.15 bLink = some (some ⟨"LinkerA", "Linker",
      [("YTM", FieldVal.str (fmtPct ytmLink)),
       ("Real Yield", FieldVal.str (fmtPct (real_yield ytmLink 0.06)))]⟩)
  ∧ FieldVal.isNum (FieldVal.str (fmtPct (real_yield ytmLink 0.06))) = false :=
  ⟨by with_unfolding_all rfl, rfl⟩

/-- C8 (amended): `floater_coupon` returns exactly `base_rate + spread`
and never fails, with `floater_coupon 0.15 0.005 = 0.155` exactly; for
every floater bond the report's Coupon Now field is the percent-formatted
rendering of `floater_coupon base_rate (spread default 0)` (a string, not
the raw number). -/
theorem floater_coupon_spec :
    (∀ base spread : ℚ, floater_coupon base spread = base + spread)
  ∧ floater_coupon 0.15 0.005 = 0.155
  ∧ (∀ i r b, b.type = "floater" →
      analyze_bond i r b = some (some ⟨b.name, "Floater",
        [("Coupon Now", FieldVal.str (fmtPct (floater_coupon r (b.spread.getD 0))))]⟩)) := by
  refine ⟨fun base spread => rfl, by norm_num [floater_coupon], fun i r b hk => ?_⟩
  simp [analyze_bond, hk]

/-- Witness for C8's amended theorem at the floater `bFloatS`
(spread `0.005`, the spec's concrete scenario 3). -/
theorem floater_coupon_spec_witness :
    analyze_bond 0.06 0.15 bFloatS = some (some ⟨bFloatS.name, "Floater",
      [("Coupon Now", FieldVal.str (fmtPct (floater_coupon 0.15 (bFloatS.spread.getD 0))))]⟩) :=
  floater_coupon_spec.2.2 0.06 0.15 bFloatS rfl

/-- Counterexample to C8 as stated: `floater_coupon 0.15 0.005` is exactly
`0.155`, but the Coupon Now field of the report is the formatted string
`"15.50%"`, not the raw number `0.155`. -/
theorem floater_coupon_field_cex :
    analyze_bond 0.06 0.15 bFloatS =
      some (some ⟨"FS", "Floater", [("Coupon Now", FieldVal.str "15.50%")]⟩)
  ∧ FieldVal.isNum (FieldVal.str "15.50%") = false
  ∧ fmtPct (floater_coupon 0.15 0.005) = "15.50%" :=
  ⟨by with_unfolding_all decide, rfl, by with_unfolding_all decide⟩

/-- C9: with the portfolio context omitted, `analyze_bonds` runs with the
declared default parameters `inflation = 0.06` and `base_rate = 0.15`. -/
theorem analyze_bonds_default_params (bs : List Bond) :
    analyze_bonds_defaults bs = analyze_bonds bs 0.06 0.15 := rfl

/-- C10: the report produced for a floater bond depends only on the
bond's name, its spread (with default 0) and the batch `base_rate`: the
bond's price, coupon, years, nominal and payments-per-year, and the batch
inflation parameter, are never consulted. -/
theorem floater_report_independence (i1 i2 r : ℚ) (b1 b2 : Bond)
    (h1 : b1.type = "floater") (h2 : b2.type = "floater")
    (hn : b1.name = b2.name) (hs : b1.spread.getD 0 = b2.spread.getD 0) :
    analyze_bond i1 r b1 = analyze_bond i2 r b2 := by
  simp [analyze_bond, h1, h2, hn, hs]

/-- Witness for C10: `bFloatFmt` and `bFloatP` share name and spread but
differ in price, coupon, years, nominal and payments-per-year, and the two
calls use different inflation parameters — the reports coincide. -/
theorem floater_report_independence_witness :
    analyze_bond 0.06 0.15 bFloatFmt = analyze_bond 0.99 0.15 bFloatP :=
  floater_report_independence 0.06 0.99 0.15 bFloatFmt bFloatP rfl rfl rfl rfl

end BondYieldCalc
